import Mathlib

/-!
Verification of the core control-loop logic of the Freenove starter-kit
Rust programs (`potentionmeter_rgb/src/main.rs` and `Softlight/src/main.rs`):
I2C device probing, ADC sampling command framing, software-PWM timing,
sampler error handling, shutdown-flag discipline and process exit outcomes.
The Rust code is shallowly embedded: bus and pin I/O is modelled by explicit
success/failure oracles and event traces, machine integers by `Nat`
(all values involved stay far below any overflow boundary: duty in 0..=255,
period 1000, command bytes < 256).
-/

/-! ### Constants from the source -/

def PCF8591_ADDR : Nat := 0x48

def ADS7830_ADDR : Nat := 0x4b

def RED_PIN : Nat := 22

def GREEN_PIN : Nat := 27

def BLUE_PIN : Nat := 17

def LED_PIN : Nat := 17

/-- `let buses = [1, 13, 14];` in `potentionmeter_rgb`. -/
def buses : List Nat := [1, 13, 14]

/-- `let period_micros = 1000u64;` in both PWM threads. -/
def period_micros : Nat := 1000

/-! ### Device Prober (`potentionmeter_rgb/src/main.rs` lines 22–59)

The hardware bus is modelled by an oracle: whether `I2c::with_bus(bus)`
succeeds, and whether `set_slave_address`/`read(&mut [0])` succeed for a
given bus, retry-attempt index and slave address. -/

structure BusEnv where
  openOk : Nat → Bool
  setAddrOk : Nat → Nat → Nat → Bool
  readOk : Nat → Nat → Nat → Bool

/-- One probe of one address on one attempt:
`i2c.set_slave_address(addr).is_ok() && i2c.read(&mut [0]).is_ok()`. -/
def BusEnv.probe (env : BusEnv) (bus attempt addr : Nat) : Bool :=
  env.setAddrOk bus attempt addr && env.readOk bus attempt addr

/-- The inner retry loop `for _ in 0..3 { ... }` on one opened bus:
`remaining` attempts are left, the current attempt index is `i`.
Each attempt probes PCF8591's address first, then ADS7830's address;
`some true` means `is_pcf8591 = Some(true)` (ChipA), `some false` means
ChipB, `none` means the retry loop exhausted all attempts. -/
def probeBus (env : BusEnv) (bus : Nat) : Nat → Nat → Option Bool
  | 0, _ => none
  | remaining + 1, i =>
    if env.probe bus i PCF8591_ADDR then some true
    else if env.probe bus i ADS7830_ADDR then some false
    else probeBus env bus remaining (i + 1)

/-- The outer loop `for &bus in &buses { ... }`: a bus whose open fails is
skipped (`Err(_) => continue`), an opened bus gets the 3-attempt retry loop,
and the first successful probe binds `(bus, protocol)` (`break` once
`i2c_n.is_some()`). -/
def detect (env : BusEnv) : List Nat → Option (Nat × Bool)
  | [] => none
  | b :: rest =>
    if env.openOk b then
      match probeBus env b 3 0 with
      | some p => some (b, p)
      | none => detect env rest
    else detect env rest

/-! ### Main-scope outcome (`potentionmeter_rgb` lines 51–59, 67–188)

On detection failure `main` prints three diagnostics on stderr and calls
`std::process::exit(-1)` before the PWM thread is spawned; on success it
spawns the driver thread and, after a graceful shutdown, returns `Ok(())`
(process status 0). -/

structure MainOutcome where
  exitCode : Int
  driverStarted : Bool
  stderrLines : List String

def rgbMainOutcome (env : BusEnv) : MainOutcome :=
  match detect env buses with
  | none =>
    { exitCode := -1
      driverStarted := false
      stderrLines :=
        ["No correct I2C device (PCF8591 or ADS7830) found on buses [1, 13, 14].",
         "Please check your wiring and ensure I2C is enabled.",
         "Program Exit."] }
  | some _ =>
    { exitCode := 0
      driverStarted := true
      stderrLines := [] }

/-! ### PWM timing (`Softlight/src/main.rs` lines 90–91) -/

/-- `let on_time = (period_micros * duty) / 255;` (u64 division truncates). -/
def on_time (duty : Nat) : Nat := period_micros * duty / 255

/-- `let off_time = period_micros - on_time;`. -/
def off_time (duty : Nat) : Nat := period_micros - on_time duty

/-! ### ADC command framing and sampling

The bus as seen by one `read_adc` call: whether `set_slave_address` and
`write` succeed, and what the k-th `read` of the call returns
(`none` = bus error). The call's I2C operations are recorded as a trace. -/

structure I2cEnv where
  setAddrOk : Nat → Bool
  writeOk : List Nat → Bool
  readByte : Nat → Option Nat

inductive I2cEv where
  | setAddr (addr : Nat)
  | write (bytes : List Nat)
  | read
  deriving DecidableEq, Repr

/-- ChipA (PCF8591) branch of `read_adc` (`potentionmeter_rgb` lines 139–145):
set address 0x48, write the single command byte `0x40 | channel`, then two
consecutive 1-byte reads into the same buffer; `Ok(buf[0])` is the byte of
the second read (the first is a dummy read). A failing operation aborts the
call with an error. -/
def read_adcA (env : I2cEnv) (channel : Nat) : List I2cEv × Option Nat :=
  if env.setAddrOk PCF8591_ADDR then
    if env.writeOk [0x40 ||| channel] then
      match env.readByte 0 with
      | some _ =>
        match env.readByte 1 with
        | some b =>
          ([I2cEv.setAddr PCF8591_ADDR, I2cEv.write [0x40 ||| channel],
            I2cEv.read, I2cEv.read], some b)
        | none =>
          ([I2cEv.setAddr PCF8591_ADDR, I2cEv.write [0x40 ||| channel],
            I2cEv.read, I2cEv.read], none)
      | none =>
        ([I2cEv.setAddr PCF8591_ADDR, I2cEv.write [0x40 ||| channel],
          I2cEv.read], none)
    else ([I2cEv.setAddr PCF8591_ADDR, I2cEv.write [0x40 ||| channel]], none)
  else ([I2cEv.setAddr PCF8591_ADDR], none)

/-- The ChipB command-byte lookup (`potentionmeter_rgb` lines 152–162):
`match channel { 0 => 0x84, 1 => 0xc4, ..., _ => 0x84 }`. -/
def ads7830Cmd (channel : Nat) : Nat :=
  match channel with
  | 0 => 0x84
  | 1 => 0xc4
  | 2 => 0x94
  | 3 => 0xd4
  | 4 => 0xa4
  | 5 => 0xe4
  | 6 => 0xb4
  | 7 => 0xf4
  | _ => 0x84

/-- ChipB (ADS7830) branch of `read_adc` (`potentionmeter_rgb` lines 146–168):
set address 0x4b, write the looked-up command byte, one 1-byte read. -/
def read_adcB (env : I2cEnv) (channel : Nat) : List I2cEv × Option Nat :=
  if env.setAddrOk ADS7830_ADDR then
    if env.writeOk [ads7830Cmd channel] then
      match env.readByte 0 with
      | some b =>
        ([I2cEv.setAddr ADS7830_ADDR, I2cEv.write [ads7830Cmd channel],
          I2cEv.read], some b)
      | none =>
        ([I2cEv.setAddr ADS7830_ADDR, I2cEv.write [ads7830Cmd channel],
          I2cEv.read], none)
    else ([I2cEv.setAddr ADS7830_ADDR, I2cEv.write [ads7830Cmd channel]], none)
  else ([I2cEv.setAddr ADS7830_ADDR], none)

/-- The `read_adc` closure (`potentionmeter_rgb` lines 138–169). -/
def read_adc (env : I2cEnv) (is_pcf8591 : Bool) (channel : Nat) :
    List I2cEv × Option Nat :=
  if is_pcf8591 then read_adcA env channel else read_adcB env channel

/-! ### Sampler iterations

`Softlight` main loop lines 114–155: one iteration computes `value_result`
(channel 0; the PCF8591 path writes the fixed command byte `0x40`, the
ADS7830 path writes `0x84 = ads7830Cmd 0`, with the same framing as
`read_adc`), then on `Ok(value)` stores it to `duty_cycle`, and on `Err`
only logs — `duty_cycle` keeps its prior value. -/

def softlightSample (env : I2cEnv) (is_pcf8591 : Bool) : Option Nat :=
  (read_adc env is_pcf8591 0).2

def softlightIter (env : I2cEnv) (is_pcf8591 : Bool) (duty : Nat) : Nat :=
  match softlightSample env is_pcf8591 with
  | some value => value
  | none => duty

/-- `potentionmeter_rgb` main loop lines 171–177: one iteration reads
channels 0, 1, 2 (each over its own view of the bus) and stores
`read_adc(c).unwrap_or(0)` into the three duty slots: a failed read stores
0, whatever the prior duty values were. -/
def rgbIter (envR envG envB : I2cEnv) (is_pcf8591 : Bool) :
    Nat × Nat × Nat :=
  (((read_adc envR is_pcf8591 0).2).getD 0,
   ((read_adc envG is_pcf8591 1).2).getD 0,
   ((read_adc envB is_pcf8591 2).2).getD 0)

/-- The `Softlight` sampler loop `while running.load(..)` with the flag value
read at iteration `i` given by `flag i` and the bus behaviour at iteration
`i` given by `envs i`. `fuel` bounds the number of iterations we unfold;
`none` means the loop was still running after `fuel` iterations, `some ds`
means it exited by observing the flag false, after publishing the duty
values `ds`. Bus errors never produce `none`: only the flag ends the loop. -/
def softlightRun (flag : Nat → Bool) (envs : Nat → I2cEnv)
    (is_pcf8591 : Bool) : Nat → Nat → Nat → Option (List Nat)
  | 0, _, _ => none
  | fuel + 1, i, duty =>
    if flag i then
      match softlightRun flag envs is_pcf8591 fuel (i + 1)
          (softlightIter (envs i) is_pcf8591 duty) with
      | some ds => some (softlightIter (envs i) is_pcf8591 duty :: ds)
      | none => none
    else some []

/-- The new value of one `potentionmeter_rgb` duty slot after one sampling
of its channel `c`: the main loop stores `read_adc(c).unwrap_or(0)`
unconditionally (`duty_r.store(val_r, ..)`), so the slot's prior value
never enters the computation. -/
def rgbDutyAfter (env : I2cEnv) (is_pcf8591 : Bool) (c _prior : Nat) : Nat :=
  ((read_adc env is_pcf8591 c).2).getD 0

/-- The `potentionmeter_rgb` sampler loop `while running.load(..)`
(lines 137–185): each iteration reads channels 0, 1, 2 and stores the three
results unconditionally; bus errors never end the loop, only the flag
does. -/
def rgbSamplerRun (flag : Nat → Bool) (envsR envsG envsB : Nat → I2cEnv)
    (is_pcf8591 : Bool) : Nat → Nat → Option (List (Nat × Nat × Nat))
  | 0, _ => none
  | fuel + 1, i =>
    if flag i then
      match rgbSamplerRun flag envsR envsG envsB is_pcf8591 fuel (i + 1) with
      | some ds =>
        some (rgbIter (envsR i) (envsG i) (envsB i) is_pcf8591 :: ds)
      | none => none
    else some []

/-! ### PWM Driver loops

Pin events emitted by the driver threads; a pin is "deactivated" by
`set_low` (both programs drive common-cathode wiring: low = off). -/

inductive PinEv where
  | setLow (pin : Nat)
  | setHigh (pin : Nat)
  | sleepUs (us : Nat)
  | sleepMs (ms : Nat)
  | setPwm (pin period width : Nat)
  deriving DecidableEq, Repr

/-- One iteration body of the `Softlight` PWM thread (lines 79–99):
`duty == 0` holds the pin low one period; `duty == 255` holds it high one
period; otherwise high for `on_time` then, only when `off_time > 0`, low
for `off_time`. -/
def softlightPwmBody (duty : Nat) : List PinEv :=
  if duty = 0 then
    [PinEv.setLow LED_PIN, PinEv.sleepUs period_micros]
  else if duty = 255 then
    [PinEv.setHigh LED_PIN, PinEv.sleepUs period_micros]
  else
    PinEv.setHigh LED_PIN :: PinEv.sleepUs (on_time duty) ::
      (if off_time duty > 0 then
        [PinEv.setLow LED_PIN, PinEv.sleepUs (off_time duty)]
      else [])

/-- The `Softlight` PWM thread loop `while running.load(..) { .. }` followed
by the epilogue `pin.set_low();` (line 102). The flag read at iteration `i`
is `flag i`, the duty read is `duty i`; `none` means still running after
`fuel` iterations. -/
def softlightPwmRun (flag : Nat → Bool) (duty : Nat → Nat) :
    Nat → Nat → Option (List PinEv)
  | 0, _ => none
  | fuel + 1, i =>
    if flag i then
      match softlightPwmRun flag duty fuel (i + 1) with
      | some tr => some (softlightPwmBody (duty i) ++ tr)
      | none => none
    else some [PinEv.setLow LED_PIN]

/-- One iteration body of the `potentionmeter_rgb` PWM thread
(lines 95–121): three `set_pwm(period, period * d / 255)` calls then a
10 ms sleep. -/
def rgbPwmBody (dr dg db : Nat) : List PinEv :=
  [PinEv.setPwm RED_PIN period_micros (period_micros * dr / 255),
   PinEv.setPwm GREEN_PIN period_micros (period_micros * dg / 255),
   PinEv.setPwm BLUE_PIN period_micros (period_micros * db / 255),
   PinEv.sleepMs 10]

/-- The `potentionmeter_rgb` PWM thread loop followed by the epilogue
`pin_r.set_low(); pin_g.set_low(); pin_b.set_low();` (lines 123–125). -/
def rgbPwmRun (flag : Nat → Bool) (dutyR dutyG dutyB : Nat → Nat) :
    Nat → Nat → Option (List PinEv)
  | 0, _ => none
  | fuel + 1, i =>
    if flag i then
      match rgbPwmRun flag dutyR dutyG dutyB fuel (i + 1) with
      | some tr => some (rgbPwmBody (dutyR i) (dutyG i) (dutyB i) ++ tr)
      | none => none
    else
      some [PinEv.setLow RED_PIN, PinEv.setLow GREEN_PIN,
            PinEv.setLow BLUE_PIN]

/-! ### RunFlag (`running: Arc<AtomicBool>`)

In both programs the only operations ever performed on `running` are:
`AtomicBool::new(true)` at creation, `store(false, SeqCst)` inside the
ctrl-c handler, and `load(Ordering::SeqCst)` in the sampler loop condition
and the PWM thread loop condition. We model the flag's value after a
sequence of these operations. -/

inductive RunFlagOp where
  | handlerStore
  | samplerLoad
  | driverLoad
  deriving DecidableEq, Repr

/-- Effect of one operation on the flag value: the handler's
`store(false, ..)` sets it false; the two loads leave it unchanged. -/
def runFlagStep (b : Bool) : RunFlagOp → Bool
  | RunFlagOp.handlerStore => false
  | RunFlagOp.samplerLoad => b
  | RunFlagOp.driverLoad => b

/-- Flag value after a sequence of operations, from the initial value
`AtomicBool::new(true)`. -/
def runFlagAfter (ops : List RunFlagOp) : Bool :=
  ops.foldl runFlagStep true

/-! ### Concrete environments used by the witnesses -/

/-- A bus on which identifier 1 fails to open, every other bus opens, every
`set_slave_address` succeeds, and a 1-byte read succeeds only at ADS7830's
address (ChipA absent, ChipB present). -/
def envChipB : BusEnv :=
  { openOk := fun b => b == 13
    setAddrOk := fun _ _ _ => true
    readOk := fun _ _ addr => addr == ADS7830_ADDR }

/-- A bus where nothing ever opens: every probe fails everywhere. -/
def envDead : BusEnv :=
  { openOk := fun _ => false
    setAddrOk := fun _ _ _ => false
    readOk := fun _ _ _ => false }

/-- A bus where everything succeeds (ChipA answers first). -/
def envLive : BusEnv :=
  { openOk := fun _ => true
    setAddrOk := fun _ _ _ => true
    readOk := fun _ _ _ => true }

/-- A per-call I2C view where every operation succeeds and every read
returns byte 99. -/
def envOk99 : I2cEnv :=
  { setAddrOk := fun _ => true
    writeOk := fun _ => true
    readByte := fun _ => some 99 }

/-- A per-call I2C view where every read returns a bus error (writes and
address selection succeed). -/
def envReadFail : I2cEnv :=
  { setAddrOk := fun _ => true
    writeOk := fun _ => true
    readByte := fun _ => none }

/-! ## Theorems -/

/-- C2: for every duty in 0..=255 with the fixed period 1000 µs, the
Softlight PWM timing `on_time = (period_micros * duty) / 255` (integer
truncation) and `off_time = period_micros - on_time` satisfy
`on_time + off_time = period`, `on_time = 0` iff `duty = 0`,
`on_time = period` iff `duty = 255`, and `on_time` is monotonically
non-decreasing in the duty value. -/
theorem pwm_timing_properties (d d1 d2 : Nat) (hd : d ≤ 255)
    (h12 : d1 ≤ d2) :
    on_time d + off_time d = period_micros
    ∧ (on_time d = 0 ↔ d = 0)
    ∧ (on_time d = period_micros ↔ d = 255)
    ∧ on_time d1 ≤ on_time d2 := by
  have hmono : ∀ a b : Nat, a ≤ b → on_time a ≤ on_time b := fun a b h =>
    Nat.div_le_div_right (Nat.mul_le_mul (Nat.le_refl period_micros) h)
  have h255 : on_time 255 = 1000 := rfl
  have h254 : on_time 254 = 996 := rfl
  have hone : on_time 1 = 3 := rfl
  have hub : on_time d ≤ 1000 := by
    have := hmono d 255 hd
    omega
  refine ⟨?_, ⟨?_, ?_⟩, ⟨?_, ?_⟩, hmono d1 d2 h12⟩
  · simp only [off_time, period_micros]
    omega
  · intro h0
    by_contra hne
    have h1d : 1 ≤ d := Nat.one_le_iff_ne_zero.mpr hne
    have := hmono 1 d h1d
    omega
  · intro h
    subst h
    rfl
  · intro h1000
    simp only [period_micros] at h1000
    by_contra hne
    have hle : d ≤ 254 := by omega
    have := hmono d 254 hle
    omega
  · intro h
    subst h
    rfl

/-- C2 witness: the properties instantiated at duty 10 and the monotone
pair 3 ≤ 200. -/
theorem pwm_timing_properties_witness :
    on_time 10 + off_time 10 = period_micros
    ∧ (on_time 10 = 0 ↔ 10 = 0)
    ∧ (on_time 10 = period_micros ↔ 10 = 255)
    ∧ on_time 3 ≤ on_time 200 :=
  pwm_timing_properties 10 3 200 (by decide) (by decide)

/-- C10: for every duty in 1..=254 the Softlight off-phase duration
`off_time = 1000 - (1000 * duty) / 255` is at least 4 (hence strictly
positive), so the `if off_time > 0` guard in the intermediate-duty branch
always takes the deactivate phase: the cycle body is exactly
high, sleep(on_time), low, sleep(off_time). -/
theorem off_time_intermediate_positive (d : Nat) (h1 : 1 ≤ d)
    (h2 : d ≤ 254) :
    4 ≤ off_time d
    ∧ softlightPwmBody d =
        [PinEv.setHigh LED_PIN, PinEv.sleepUs (on_time d),
         PinEv.setLow LED_PIN, PinEv.sleepUs (off_time d)] := by
  have hmono : on_time d ≤ on_time 254 :=
    Nat.div_le_div_right (Nat.mul_le_mul (Nat.le_refl period_micros) h2)
  have h254 : on_time 254 = 996 := rfl
  have hoff : 4 ≤ off_time d := by
    simp only [off_time, period_micros]
    omega
  refine ⟨hoff, ?_⟩
  have hne0 : d ≠ 0 := by omega
  have hne255 : d ≠ 255 := by omega
  have hpos : off_time d > 0 := by omega
  simp [softlightPwmBody, hne0, hne255, hpos]

/-- C10 witness: duty 254, the tightest case, leaves off_time = 4. -/
theorem off_time_intermediate_positive_witness :
    4 ≤ off_time 254
    ∧ softlightPwmBody 254 =
        [PinEv.setHigh LED_PIN, PinEv.sleepUs (on_time 254),
         PinEv.setLow LED_PIN, PinEv.sleepUs (off_time 254)] :=
  off_time_intermediate_positive 254 (by decide) (by decide)

/-- C9: every channel index outside 0..7 (and within u8 range) falls to the
catch-all `_ => 0x84` arm of the ChipB lookup, yielding the same command
byte as channel 0 instead of failing. -/
theorem ads7830Cmd_out_of_range (c : Nat) (h8 : 8 ≤ c) (h256 : c ≤ 255) :
    ads7830Cmd c = 0x84 ∧ ads7830Cmd c = ads7830Cmd 0 := by
  obtain ⟨n, rfl⟩ : ∃ n, c = n + 8 := ⟨c - 8, by omega⟩
  exact ⟨rfl, rfl⟩

/-- C9 witness: channel 42 yields 0x84, the channel-0 byte. -/
theorem ads7830Cmd_out_of_range_witness :
    ads7830Cmd 42 = 0x84 ∧ ads7830Cmd 42 = ads7830Cmd 0 :=
  ads7830Cmd_out_of_range 42 (by decide) (by decide)

/-- C3: on the ChipA (PCF8591) path, for every channel, a successful sample
writes the single command byte `0x40 | channel` and performs exactly two
consecutive 1-byte reads; the first read's byte `b0` is discarded (the
result does not mention it) and the second read's byte `b1` is returned. -/
theorem pcf8591_two_read_discard (env : I2cEnv) (c b0 b1 : Nat)
    (hA : env.setAddrOk PCF8591_ADDR = true)
    (hW : env.writeOk [0x40 ||| c] = true)
    (hR0 : env.readByte 0 = some b0)
    (hR1 : env.readByte 1 = some b1) :
    read_adcA env c =
      ([I2cEv.setAddr PCF8591_ADDR, I2cEv.write [0x40 ||| c],
        I2cEv.read, I2cEv.read], some b1)
    ∧ (read_adcA env c).1.count I2cEv.read = 2 := by
  have h : read_adcA env c =
      ([I2cEv.setAddr PCF8591_ADDR, I2cEv.write [0x40 ||| c],
        I2cEv.read, I2cEv.read], some b1) := by
    simp [read_adcA, hA, hW, hR0, hR1]
  refine ⟨h, ?_⟩
  rw [h]
  rfl

/-- C3 witness: channel 2 on an all-succeeding bus returning byte 99. -/
theorem pcf8591_two_read_discard_witness :
    read_adcA envOk99 2 =
      ([I2cEv.setAddr PCF8591_ADDR, I2cEv.write [0x40 ||| 2],
        I2cEv.read, I2cEv.read], some 99)
    ∧ (read_adcA envOk99 2).1.count I2cEv.read = 2 :=
  pcf8591_two_read_discard envOk99 2 99 99 rfl rfl rfl rfl

/-- C4: the ChipB (ADS7830) command-byte lookup maps channels 0..7 to the
eight distinct bytes 0x84, 0xC4, 0x94, 0xD4, 0xA4, 0xE4, 0xB4, 0xF4 and is
injective on 0..7, and a successful ChipB sample writes the looked-up
command byte and performs exactly one 1-byte read. -/
theorem ads7830_lookup_bijective_one_read (env : I2cEnv) (c b : Nat)
    (hA : env.setAddrOk ADS7830_ADDR = true)
    (hW : env.writeOk [ads7830Cmd c] = true)
    (hR : env.readByte 0 = some b) :
    (ads7830Cmd 0 = 0x84 ∧ ads7830Cmd 1 = 0xc4 ∧ ads7830Cmd 2 = 0x94 ∧
     ads7830Cmd 3 = 0xd4 ∧ ads7830Cmd 4 = 0xa4 ∧ ads7830Cmd 5 = 0xe4 ∧
     ads7830Cmd 6 = 0xb4 ∧ ads7830Cmd 7 = 0xf4)
    ∧ (∀ c1 < 8, ∀ c2 < 8, ads7830Cmd c1 = ads7830Cmd c2 → c1 = c2)
    ∧ read_adcB env c =
        ([I2cEv.setAddr ADS7830_ADDR, I2cEv.write [ads7830Cmd c],
          I2cEv.read], some b)
    ∧ (read_adcB env c).1.count I2cEv.read = 1 := by
  have h : read_adcB env c =
      ([I2cEv.setAddr ADS7830_ADDR, I2cEv.write [ads7830Cmd c],
        I2cEv.read], some b) := by
    simp [read_adcB, hA, hW, hR]
  refine ⟨by decide, by decide, h, ?_⟩
  rw [h]
  rfl

/-- C4 witness: channel 5 on an all-succeeding bus returning byte 99. -/
theorem ads7830_lookup_bijective_one_read_witness :
    (ads7830Cmd 0 = 0x84 ∧ ads7830Cmd 1 = 0xc4 ∧ ads7830Cmd 2 = 0x94 ∧
     ads7830Cmd 3 = 0xd4 ∧ ads7830Cmd 4 = 0xa4 ∧ ads7830Cmd 5 = 0xe4 ∧
     ads7830Cmd 6 = 0xb4 ∧ ads7830Cmd 7 = 0xf4)
    ∧ (∀ c1 < 8, ∀ c2 < 8, ads7830Cmd c1 = ads7830Cmd c2 → c1 = c2)
    ∧ read_adcB envOk99 5 =
        ([I2cEv.setAddr ADS7830_ADDR, I2cEv.write [ads7830Cmd 5],
          I2cEv.read], some 99)
    ∧ (read_adcB envOk99 5).1.count I2cEv.read = 1 :=
  ads7830_lookup_bijective_one_read envOk99 5 99 rfl rfl rfl

/-- C1: the Device Prober searches bus-major, address-minor. A bus that
fails to open is skipped; on an opened bus, each of the 3 retry attempts
probes PCF8591's address first and ADS7830's second, recursing to the next
attempt when both fail; the first successful probe binds `(bus, protocol)`;
a bus whose 3 attempts all fail is followed by the next candidate bus; an
empty candidate list gives up with no binding. -/
theorem prober_bus_major_address_minor (env : BusEnv) (b : Nat)
    (rest : List Nat) (i remaining : Nat) (p : Bool) :
    (env.openOk b = false → detect env (b :: rest) = detect env rest)
    ∧ (env.probe b i PCF8591_ADDR = true →
        probeBus env b (remaining + 1) i = some true)
    ∧ (env.probe b i PCF8591_ADDR = false →
       env.probe b i ADS7830_ADDR = true →
        probeBus env b (remaining + 1) i = some false)
    ∧ (env.probe b i PCF8591_ADDR = false →
       env.probe b i ADS7830_ADDR = false →
        probeBus env b (remaining + 1) i = probeBus env b remaining (i + 1))
    ∧ (env.openOk b = true → probeBus env b 3 0 = some p →
        detect env (b :: rest) = some (b, p))
    ∧ (env.openOk b = true → probeBus env b 3 0 = none →
        detect env (b :: rest) = detect env rest)
    ∧ detect env [] = none := by
  refine ⟨?_, ?_, ?_, ?_, ?_, ?_, rfl⟩
  · intro h
    simp [detect, h]
  · intro h
    simp [probeBus, h]
  · intro h1 h2
    simp [probeBus, h1, h2]
  · intro h1 h2
    simp [probeBus, h1, h2]
  · intro ho hp
    simp [detect, ho, hp]
  · intro ho hp
    simp [detect, ho, hp]

/-- C1 witness: on `envChipB` (bus 1 fails to open, bus 13 opens, ChipA's
address never answers, ChipB's does) the prober skips bus 1 and binds
ChipB (`is_pcf8591 = false`) on bus 13 — exactly the spec's simulated
scenario transposed to the source's candidate list [1, 13, 14]. -/
theorem prober_bus_major_address_minor_witness :
    detect envChipB buses = some (13, false) := by
  have h1 : detect envChipB (1 :: [13, 14]) = detect envChipB [13, 14] :=
    (prober_bus_major_address_minor envChipB 1 [13, 14] 0 0 false).1 rfl
  have h2 : detect envChipB (13 :: [14]) = some (13, false) :=
    (prober_bus_major_address_minor envChipB 13 [14] 0 0
      false).2.2.2.2.1 rfl rfl
  calc detect envChipB buses = detect envChipB [13, 14] := h1
    _ = some (13, false) := h2

/-- C7: when detection exhausts every candidate bus without success,
`rgbMainOutcome` exits with the non-zero code -1 before any PWM driver
context is started, printing a diagnostic that includes the remediation
hint about wiring; when detection succeeds, the driver is started and a
graceful shutdown ends with exit status 0. -/
theorem detection_failure_exit (env : BusEnv) :
    (detect env buses = none →
      (rgbMainOutcome env).exitCode = -1
      ∧ (rgbMainOutcome env).exitCode ≠ 0
      ∧ (rgbMainOutcome env).driverStarted = false
      ∧ "Please check your wiring and ensure I2C is enabled." ∈
          (rgbMainOutcome env).stderrLines)
    ∧ (∀ r, detect env buses = some r →
        (rgbMainOutcome env).exitCode = 0
        ∧ (rgbMainOutcome env).driverStarted = true) := by
  constructor
  · intro h
    simp [rgbMainOutcome, h]
  · intro r h
    simp [rgbMainOutcome, h]

/-- C7 witness: the dead bus (`envDead`) exits -1 with the wiring hint and
no driver; the live bus (`envLive`, ChipA found on bus 1) exits 0 with the
driver started. -/
theorem detection_failure_exit_witness :
    ((rgbMainOutcome envDead).exitCode = -1
      ∧ (rgbMainOutcome envDead).exitCode ≠ 0
      ∧ (rgbMainOutcome envDead).driverStarted = false
      ∧ "Please check your wiring and ensure I2C is enabled." ∈
          (rgbMainOutcome envDead).stderrLines)
    ∧ ((rgbMainOutcome envLive).exitCode = 0
      ∧ (rgbMainOutcome envLive).driverStarted = true) :=
  ⟨(detection_failure_exit envDead).1 rfl,
   (detection_failure_exit envLive).2 (1, true) rfl⟩

/-- Helper: once some iteration reads the flag as false, the Softlight PWM
loop exits and its whole trace is the loop iterations followed by the
single epilogue `pin.set_low()`. -/
theorem softlightPwmRun_shutdown (flag : Nat → Bool) (duty : Nat → Nat) :
    ∀ fuel i, flag (i + fuel) = false →
      ∃ evs, softlightPwmRun flag duty (fuel + 1) i =
        some (evs ++ [PinEv.setLow LED_PIN]) := by
  intro fuel
  induction fuel with
  | zero =>
    intro i h
    simp only [Nat.add_zero] at h
    exact ⟨[], by simp [softlightPwmRun, h]⟩
  | succ k ih =>
    intro i h
    by_cases hf : flag i = true
    · have h' : flag ((i + 1) + k) = false := by
        have : (i + 1) + k = i + (k + 1) := by omega
        rw [this]
        exact h
      obtain ⟨evs, he⟩ := ih (i + 1) h'
      refine ⟨softlightPwmBody (duty i) ++ evs, ?_⟩
      rw [softlightPwmRun, he, hf]
      simp
    · have hf' : flag i = false := by
        revert hf
        cases flag i <;> simp
      exact ⟨[], by simp [softlightPwmRun, hf']⟩

/-- Helper: the same shutdown shape for the three-pin RGB PWM loop, whose
epilogue lowers the red, green and blue pins once each. -/
theorem rgbPwmRun_shutdown (flag : Nat → Bool) (dutyR dutyG dutyB : Nat → Nat) :
    ∀ fuel i, flag (i + fuel) = false →
      ∃ evs, rgbPwmRun flag dutyR dutyG dutyB (fuel + 1) i =
        some (evs ++ [PinEv.setLow RED_PIN, PinEv.setLow GREEN_PIN,
                      PinEv.setLow BLUE_PIN]) := by
  intro fuel
  induction fuel with
  | zero =>
    intro i h
    simp only [Nat.add_zero] at h
    exact ⟨[], by simp [rgbPwmRun, h]⟩
  | succ k ih =>
    intro i h
    by_cases hf : flag i = true
    · have h' : flag ((i + 1) + k) = false := by
        have : (i + 1) + k = i + (k + 1) := by omega
        rw [this]
        exact h
      obtain ⟨evs, he⟩ := ih (i + 1) h'
      refine ⟨rgbPwmBody (dutyR i) (dutyG i) (dutyB i) ++ evs, ?_⟩
      rw [rgbPwmRun, he, hf]
      simp
    · have hf' : flag i = false := by
        revert hf
        cases flag i <;> simp
      exact ⟨[], by simp [rgbPwmRun, hf']⟩

/-- C6: once the RunFlag is read false at some iteration, both PWM driver
loops terminate, and each driver then sets its pin(s) to the deactivated
(low) level exactly once as the final events of its execution context —
the trace ends with the one-shot epilogue, whatever the duty values (and
hence cycle phases) were. -/
theorem pwm_shutdown_deactivates (flag : Nat → Bool)
    (duty dutyR dutyG dutyB : Nat → Nat) (n : Nat) (h : flag n = false) :
    (∃ evs, softlightPwmRun flag duty (n + 1) 0 =
      some (evs ++ [PinEv.setLow LED_PIN]))
    ∧ (∃ evs, rgbPwmRun flag dutyR dutyG dutyB (n + 1) 0 =
      some (evs ++ [PinEv.setLow RED_PIN, PinEv.setLow GREEN_PIN,
                    PinEv.setLow BLUE_PIN])) := by
  have h0 : flag (0 + n) = false := by
    simpa using h
  exact ⟨softlightPwmRun_shutdown flag duty n 0 h0,
         rgbPwmRun_shutdown flag dutyR dutyG dutyB n 0 h0⟩

/-- C6 witness: a flag that reads true once then false, with mid-range and
boundary duty values, gives both traces ending in the deactivation
epilogue. -/
theorem pwm_shutdown_deactivates_witness :
    (∃ evs, softlightPwmRun (fun i => i == 0) (fun _ => 128) (1 + 1) 0 =
      some (evs ++ [PinEv.setLow LED_PIN]))
    ∧ (∃ evs, rgbPwmRun (fun i => i == 0) (fun _ => 0) (fun _ => 255)
        (fun _ => 77) (1 + 1) 0 =
      some (evs ++ [PinEv.setLow RED_PIN, PinEv.setLow GREEN_PIN,
                    PinEv.setLow BLUE_PIN])) :=
  pwm_shutdown_deactivates (fun i => i == 0) (fun _ => 128) (fun _ => 0)
    (fun _ => 255) (fun _ => 77) 1 rfl

/-- Helper: a read never changes the flag; only the handler's store does,
and it stores false. -/
theorem runFlagStep_keeps (b : Bool) (op : RunFlagOp)
    (h : op ≠ RunFlagOp.handlerStore) : runFlagStep b op = b := by
  cases op with
  | handlerStore => exact absurd rfl h
  | samplerLoad => rfl
  | driverLoad => rfl

/-- Helper: from a false flag, no sequence of operations can bring it back
to true. -/
theorem runFlag_foldl_false : ∀ ops : List RunFlagOp,
    ops.foldl runFlagStep false = false := by
  intro ops
  induction ops with
  | nil => rfl
  | cons op t ih =>
    cases op <;> simpa [runFlagStep] using ih

/-- Helper: the flag reads false after a sequence of operations exactly when
the handler's store occurs in it. -/
theorem runFlagAfter_false_iff : ∀ ops : List RunFlagOp,
    (runFlagAfter ops = false ↔ RunFlagOp.handlerStore ∈ ops) := by
  intro ops
  induction ops with
  | nil => simp [runFlagAfter]
  | cons op t ih =>
    cases op with
    | handlerStore =>
      simp [runFlagAfter, List.foldl_cons, runFlagStep, runFlag_foldl_false]
    | samplerLoad =>
      simpa [runFlagAfter, List.foldl_cons, runFlagStep] using ih
    | driverLoad =>
      simpa [runFlagAfter, List.foldl_cons, runFlagStep] using ih

/-- C8: the RunFlag starts true; the sampler-loop and driver-loop operations
are pure reads (they never change the value); the flag ends up false
exactly when the ctrl-c handler's `store(false)` occurs in the operation
sequence; and once false it stays false under any further operations — the
only transition is the one-way change from true to false. -/
theorem runflag_one_way (ops more : List RunFlagOp) (b : Bool)
    (op : RunFlagOp) :
    runFlagAfter [] = true
    ∧ (op ≠ RunFlagOp.handlerStore → runFlagStep b op = b)
    ∧ (runFlagAfter ops = false ↔ RunFlagOp.handlerStore ∈ ops)
    ∧ (runFlagAfter ops = false → runFlagAfter (ops ++ more) = false) := by
  refine ⟨rfl, runFlagStep_keeps b op, runFlagAfter_false_iff ops, ?_⟩
  intro h
  unfold runFlagAfter at *
  rw [List.foldl_append, h]
  exact runFlag_foldl_false more

/-- C8 witness: a concrete interleaving — a driver read, the handler store,
a sampler read — ends false, stays false after one more read, and the
driver read leaves a true flag true. -/
theorem runflag_one_way_witness :
    runFlagAfter [RunFlagOp.driverLoad, RunFlagOp.handlerStore,
      RunFlagOp.samplerLoad] = false
    ∧ runFlagAfter ([RunFlagOp.driverLoad, RunFlagOp.handlerStore,
      RunFlagOp.samplerLoad] ++ [RunFlagOp.driverLoad]) = false
    ∧ runFlagStep true RunFlagOp.driverLoad = true := by
  have h := runflag_one_way
    [RunFlagOp.driverLoad, RunFlagOp.handlerStore, RunFlagOp.samplerLoad]
    [RunFlagOp.driverLoad] true RunFlagOp.driverLoad
  have hfalse := h.2.2.1.mpr (by decide)
  exact ⟨hfalse, h.2.2.2 hfalse, h.2.1 (by decide)⟩

/-- C5 counterexample: in `potentionmeter_rgb`, when the channel-0 read
fails at the bus level, the duty slot whose prior value was 5 is
overwritten with 0 (`read_adc(0).unwrap_or(0)`), not left unchanged — the
claim fails on this program. -/
theorem sampler_error_retention_counterexample :
    (read_adc envReadFail true 0).2 = none
    ∧ rgbDutyAfter envReadFail true 0 5 = 0
    ∧ ¬ rgbDutyAfter envReadFail true 0 5 = 5 :=
  ⟨rfl, rfl, by decide⟩

/-- Helper: bus errors never end the Softlight sampler loop; only a false
flag does. -/
theorem softlightRun_terminates (flag : Nat → Bool) (envs : Nat → I2cEnv)
    (isPcf : Bool) :
    ∀ fuel i d, flag (i + fuel) = false →
      ∃ ds, softlightRun flag envs isPcf (fuel + 1) i d = some ds := by
  intro fuel
  induction fuel with
  | zero =>
    intro i d h
    simp only [Nat.add_zero] at h
    exact ⟨[], by simp [softlightRun, h]⟩
  | succ k ih =>
    intro i d h
    by_cases hf : flag i = true
    · have h' : flag ((i + 1) + k) = false := by
        have heq : (i + 1) + k = i + (k + 1) := by omega
        rw [heq]
        exact h
      obtain ⟨ds, he⟩ := ih (i + 1) (softlightIter (envs i) isPcf d) h'
      refine ⟨softlightIter (envs i) isPcf d :: ds, ?_⟩
      rw [softlightRun, he, hf]
      simp
    · have hf' : flag i = false := by
        revert hf
        cases flag i <;> simp
      exact ⟨[], by simp [softlightRun, hf']⟩

/-- Helper: bus errors never end the `potentionmeter_rgb` sampler loop
either. -/
theorem rgbSamplerRun_terminates (flag : Nat → Bool)
    (envsR envsG envsB : Nat → I2cEnv) (isPcf : Bool) :
    ∀ fuel i, flag (i + fuel) = false →
      ∃ ds, rgbSamplerRun flag envsR envsG envsB isPcf (fuel + 1) i =
        some ds := by
  intro fuel
  induction fuel with
  | zero =>
    intro i h
    simp only [Nat.add_zero] at h
    exact ⟨[], by simp [rgbSamplerRun, h]⟩
  | succ k ih =>
    intro i h
    by_cases hf : flag i = true
    · have h' : flag ((i + 1) + k) = false := by
        have heq : (i + 1) + k = i + (k + 1) := by omega
        rw [heq]
        exact h
      obtain ⟨ds, he⟩ := ih (i + 1) h'
      refine ⟨rgbIter (envsR i) (envsG i) (envsB i) isPcf :: ds, ?_⟩
      rw [rgbSamplerRun, he, hf]
      simp
    · have hf' : flag i = false := by
        revert hf
        cases flag i <;> simp
      exact ⟨[], by simp [rgbSamplerRun, hf']⟩

/-- C5 (amended): when a bus-level read or write fails during one sampling
iteration, neither sampler loop terminates (each runs until the RunFlag
reads false); the Softlight sampler leaves the DutyCycle slot unchanged
from its prior value, but the `potentionmeter_rgb` sampler overwrites every
failed channel's slot with 0 regardless of the prior value. -/
theorem sampler_error_handling (envSL envR envG envB : I2cEnv)
    (isPcf : Bool) (prior : Nat) (flag : Nat → Bool)
    (envs envsR envsG envsB : Nat → I2cEnv) (n d0 : Nat)
    (hSL : softlightSample envSL isPcf = none)
    (hR : (read_adc envR isPcf 0).2 = none)
    (hG : (read_adc envG isPcf 1).2 = none)
    (hB : (read_adc envB isPcf 2).2 = none)
    (hstop : flag n = false) :
    softlightIter envSL isPcf prior = prior
    ∧ rgbIter envR envG envB isPcf = (0, 0, 0)
    ∧ (∃ ds, softlightRun flag envs isPcf (n + 1) 0 d0 = some ds)
    ∧ (∃ ds, rgbSamplerRun flag envsR envsG envsB isPcf (n + 1) 0 =
        some ds) := by
  have h0 : flag (0 + n) = false := by
    simpa using hstop
  refine ⟨?_, ?_, softlightRun_terminates flag envs isPcf n 0 d0 h0,
    rgbSamplerRun_terminates flag envsR envsG envsB isPcf n 0 h0⟩
  · simp [softlightIter, hSL]
  · simp [rgbIter, hR, hG, hB]

/-- C5 witness: with every read failing and the flag turning false at
iteration 1, the Softlight slot keeps its prior value 7, the RGB slots all
become 0, and both loops exit only through the flag. -/
theorem sampler_error_handling_witness :
    softlightIter envReadFail true 7 = 7
    ∧ rgbIter envReadFail envReadFail envReadFail true = (0, 0, 0)
    ∧ (∃ ds, softlightRun (fun i => i == 0) (fun _ => envReadFail) true
        (1 + 1) 0 3 = some ds)
    ∧ (∃ ds, rgbSamplerRun (fun i => i == 0) (fun _ => envReadFail)
        (fun _ => envReadFail) (fun _ => envReadFail) true (1 + 1) 0 =
        some ds) :=
  sampler_error_handling envReadFail envReadFail envReadFail envReadFail
    true 7 (fun i => i == 0) (fun _ => envReadFail) (fun _ => envReadFail)
    (fun _ => envReadFail) (fun _ => envReadFail) 1 3 rfl rfl rfl rfl rfl
